import Mathlib

/-!
Shallow embedding of `sciurus17_examples_py/gripper_control.py`.

The script's observable behaviour is captured as an event trace: every call
into an external collaborator (logger, planner, executor, sleep) becomes one
`Event`.  `plan_and_execute` mirrors the helper function of the same name in
the source; `run` mirrors the step-by-step structure of `main`, which sets the
start state to the current state, sets a goal on a planning component and then
calls `plan_and_execute`, once per motion step.  `demoSequence` is the fixed
nine-step sequence that `main` issues.

Numeric conventions: Python floats carry no arithmetic in this script, so
scaling factors and sleep durations are embedded as rationals.  `math.radians`
results are only ever stored and passed along, never computed with, so an
angle is represented by the degree argument it was built from.
-/

namespace GripperControl

/-- Result of `math.radians`.  The script performs no arithmetic on these
values, so an angle is represented losslessly by its degree argument. -/
structure Radians where
  deg : ℚ
deriving DecidableEq, Repr

/-- Embedding of `math.radians` (the script only stores the result). -/
def radians (d : ℚ) : Radians := ⟨d⟩

/-- Embedding of `moveit.planning.PlanRequestParameters`: built from a
parameter namespace string (here "ompl_rrtc_default"), then the two scaling
factors are assigned. -/
structure PlanRequestParameters where
  param_namespace : String
  max_acceleration_scaling_factor : ℚ
  max_velocity_scaling_factor : ℚ
deriving DecidableEq, Repr

/-- Embedding of `moveit.planning.MultiPipelinePlanRequestParameters`.  The
script never constructs one; only the `multi_plan_parameters is not None`
branch of `plan_and_execute` can receive it, so a minimal carrier suffices. -/
structure MultiPlanParameters where
  pipelines : List PlanRequestParameters
deriving DecidableEq, Repr

/-- Embedding of `moveit.core.robot_state.RobotState` as used by the script:
a fresh state is created from the robot model and `set_joint_group_positions`
is called on it.  We track exactly the groups whose positions the script
explicitly sets (the robot model argument only sizes the state and is not
needed for that). -/
structure RobotState where
  jointGroupPositions : List (String × List Radians)
deriving DecidableEq, Repr

/-- Embedding of `RobotState.set_joint_group_positions(group, positions)`:
record the positions for `group`, overwriting any earlier entry for it.
No arity validation happens here, matching the source. -/
def RobotState.set_joint_group_positions
    (rs : RobotState) (group : String) (positions : List Radians) : RobotState :=
  ⟨(group, positions) :: rs.jointGroupPositions.filter (fun p => p.1 ≠ group)⟩

/-- The goal handed to `PlanningComponent.set_goal_state`: either a named
configuration (`configuration_name=...`) or a robot state
(`robot_state=...`). -/
inductive GoalSpec
  | configurationName (name : String)
  | robotState (rs : RobotState)
deriving DecidableEq, Repr

/-- Embedding of a MoveIt planning component's request-relevant state: the
group it plans for, whether the start state was set to the current state, and
the goal last set on it. -/
structure PlanningComponent where
  group : String
  startFromCurrent : Bool
  goal : Option GoalSpec
deriving DecidableEq, Repr

/-- Embedding of `PlanningComponent.set_start_state_to_current_state()`. -/
def set_start_state_to_current_state (pc : PlanningComponent) : PlanningComponent :=
  { pc with startFromCurrent := true }

/-- Embedding of `PlanningComponent.set_goal_state(...)`. -/
def set_goal_state (pc : PlanningComponent) (g : GoalSpec) : PlanningComponent :=
  { pc with goal := some g }

/-- Request assembly as `main` performs it before each `plan_and_execute`
call: set the start state to the current state, then set the goal. -/
def buildRequest (pc : PlanningComponent) (g : GoalSpec) : PlanningComponent :=
  set_goal_state (set_start_state_to_current_state pc) g

/-- Outcome of `planning_component.plan(...)`: truthy with a trajectory, or
falsy (the `if plan_result:` test in the source). -/
inductive PlanOutcome (τ : Type)
  | success (trajectory : τ)
  | failure
deriving DecidableEq, Repr

/-- Truthiness of a plan result (`if plan_result:` in the source). -/
def PlanOutcome.isSuccess {τ : Type} : PlanOutcome τ → Bool
  | .success _ => true
  | .failure => false

/-- Which keyword arguments `plan_and_execute` passes to
`planning_component.plan`. -/
inductive ParamChoice
  | multi (p : MultiPlanParameters)
  | single (p : PlanRequestParameters)
  | noParams
deriving DecidableEq, Repr

/-- The `if multi_plan_parameters is not None: ... elif single_plan_parameters
is not None: ... else: ...` dispatch at the top of `plan_and_execute`. -/
def selectPlanParameters (single_plan_parameters : Option PlanRequestParameters)
    (multi_plan_parameters : Option MultiPlanParameters) : ParamChoice :=
  match multi_plan_parameters with
  | some m => .multi m
  | none =>
    match single_plan_parameters with
    | some s => .single s
    | none => .noParams

/-- One observable call into an external collaborator. -/
inductive Event (τ : Type)
  | logInfo (msg : String)
  | logError (msg : String)
  | planCall (request : PlanningComponent) (params : ParamChoice)
  | executeCall (trajectory : τ) (controllers : List String)
  | sleepCall (duration : ℚ)
deriving DecidableEq, Repr

/-- What the spec's ExecutionReport records for one step. -/
inductive StepRecord
  | Executed
  | PlanningFailed
deriving DecidableEq, Repr

/-- Embedding of the helper `plan_and_execute(robot, planning_component,
logger, single_plan_parameters=None, multi_plan_parameters=None,
sleep_time=0.0)`.  The planning component's `plan` method is the `plan`
argument; the robot's `execute`, the logger and `time.sleep` appear as
events.  Besides the trace we return the per-step record the spec's
ExecutionReport keeps (`Executed` on the truthy branch, `PlanningFailed` on
the falsy one). -/
def plan_and_execute {τ : Type} (planning_component : PlanningComponent)
    (plan : ParamChoice → PlanOutcome τ)
    (single_plan_parameters : Option PlanRequestParameters)
    (multi_plan_parameters : Option MultiPlanParameters)
    (sleep_time : ℚ) : List (Event τ) × StepRecord :=
  let choice := selectPlanParameters single_plan_parameters multi_plan_parameters
  let plan_result := plan choice
  let planning : List (Event τ) :=
    [.logInfo "Planning trajectory", .planCall planning_component choice]
  match plan_result with
  | .success t =>
      (planning ++ [.logInfo "Executing plan", .executeCall t [], .sleepCall sleep_time],
        .Executed)
  | .failure =>
      (planning ++ [.logError "Planning failed", .sleepCall sleep_time],
        .PlanningFailed)

/-- One motion step of the sequence `main` issues: the planning component's
group, the goal set on it, the single-plan parameters passed, and the sleep
time (every call site omits `sleep_time`, so the Python default 0.0 is spelled
out in the demo steps). -/
structure MotionStep where
  group : String
  goal : GoalSpec
  single_plan_parameters : PlanRequestParameters
  sleep_time : ℚ
deriving DecidableEq, Repr

/-- The planning components held across steps, keyed by group name, as
returned by `MoveItPy.get_planning_component`. -/
abbrev Comps := List (String × PlanningComponent)

/-- Embedding of `get_planning_component(name)`: the stored component for the
group, created fresh for the group on first use. -/
def get_planning_component : Comps → String → PlanningComponent
  | [], name => { group := name, startFromCurrent := false, goal := none }
  | p :: rest, name => if p.1 = name then p.2 else get_planning_component rest name

/-- Store the (mutated) component back under its group name. -/
def setComponent (comps : Comps) (name : String) (pc : PlanningComponent) : Comps :=
  (name, pc) :: comps

/-- The orchestrator over a list of motion steps, from step index `i` with
component store `comps`: exactly `main`'s per-step shape —
`set_start_state_to_current_state`, `set_goal_state`, `plan_and_execute` with
`single_plan_parameters` — once per step, in list order.  The external planner
is an oracle from step index, request and parameter choice to an outcome. -/
def runFrom {τ : Type} (planner : Nat → PlanningComponent → ParamChoice → PlanOutcome τ) :
    Comps → Nat → List MotionStep → List (Event τ) × List StepRecord
  | _, _, [] => ([], [])
  | comps, i, step :: rest =>
    let pc := buildRequest (get_planning_component comps step.group) step.goal
    let r := plan_and_execute pc (planner i pc) (some step.single_plan_parameters) none
      step.sleep_time
    let next := runFrom planner (setComponent comps step.group pc) (i + 1) rest
    (r.1 ++ next.1, r.2 :: next.2)

/-- Run a whole sequence: `run(sequence) -> (trace, ExecutionReport)`. -/
def run {τ : Type} (planner : Nat → PlanningComponent → ParamChoice → PlanOutcome τ)
    (steps : List MotionStep) : List (Event τ) × List StepRecord :=
  runFrom planner [] 0 steps

/-- The planCall events of a trace, in order. -/
def Event.planCallEntry {τ : Type} : Event τ → Option (PlanningComponent × ParamChoice)
  | .planCall r c => some (r, c)
  | _ => none

/-- All planner invocations of a trace, in order. -/
def planCalls {τ : Type} (evs : List (Event τ)) : List (PlanningComponent × ParamChoice) :=
  evs.filterMap Event.planCallEntry

/-- The executeCall events of a trace, in order. -/
def Event.executeCallEntry {τ : Type} : Event τ → Option (τ × List String)
  | .executeCall t cs => some (t, cs)
  | _ => none

/-- All executor invocations of a trace, in order. -/
def executeCalls {τ : Type} (evs : List (Event τ)) : List (τ × List String) :=
  evs.filterMap Event.executeCallEntry

/-- The sleepCall events of a trace, in order. -/
def Event.sleepCallEntry {τ : Type} : Event τ → Option ℚ
  | .sleepCall d => some d
  | _ => none

/-- All sleep invocations of a trace, in order. -/
def sleepCalls {τ : Type} (evs : List (Event τ)) : List ℚ :=
  evs.filterMap Event.sleepCallEntry

/-- The error-severity log messages of a trace, in order. -/
def Event.errorLogEntry {τ : Type} : Event τ → Option String
  | .logError m => some m
  | _ => none

/-- All error-severity log messages of a trace, in order. -/
def errorLogs {τ : Type} (evs : List (Event τ)) : List String :=
  evs.filterMap Event.errorLogEntry

/-- The request each step's planner invocation carries: the step's group,
start snapshotted from the current state, the step's goal. -/
def stepRequest (step : MotionStep) : PlanningComponent :=
  { group := step.group, startFromCurrent := true, goal := some step.goal }

/-- The ExecutionReport the spec's contract promises, stated from the spec's
words (per step in order: Executed when that step's PlanOutcome is Success,
PlanningFailed when it is Failure), to be compared with what `run` records. -/
def reportOfOutcomes {τ : Type}
    (planner : Nat → PlanningComponent → ParamChoice → PlanOutcome τ) :
    Nat → List MotionStep → List StepRecord
  | _, [] => []
  | i, step :: rest =>
    (match planner i (stepRequest step) (.single step.single_plan_parameters) with
      | .success _ => StepRecord.Executed
      | .failure => StepRecord.PlanningFailed) :: reportOfOutcomes planner (i + 1) rest

/-- The invariant that the component store maps a group name to a component
for that group.  `get_planning_component` establishes it on creation and
`buildRequest` never changes the group, so `run` maintains it. -/
def GroupConsistent (comps : Comps) : Prop :=
  ∀ p ∈ comps, (p.2 : PlanningComponent).group = p.1

/-- The arm profile: `PlanRequestParameters(sciurus17, "ompl_rrtc_default")`
with both scaling factors then set to 0.1. -/
def plan_request_params : PlanRequestParameters :=
  { param_namespace := "ompl_rrtc_default"
    max_acceleration_scaling_factor := 1 / 10
    max_velocity_scaling_factor := 1 / 10 }

/-- The gripper profile: a second `PlanRequestParameters(sciurus17,
"ompl_rrtc_default")` instance, same scaling factors. -/
def gripper_plan_request_params : PlanRequestParameters :=
  { param_namespace := "ompl_rrtc_default"
    max_acceleration_scaling_factor := 1 / 10
    max_velocity_scaling_factor := 1 / 10 }

/-- The gripper opening angles of `main` (`math.radians(...)`). -/
def R_GRIPPER_CLOSE : Radians := radians 0

/-- Right gripper open angle, `math.radians(40.0)`. -/
def R_GRIPPER_OPEN : Radians := radians 40

/-- Left gripper close angle, `math.radians(0.0)`. -/
def L_GRIPPER_CLOSE : Radians := radians 0

/-- Left gripper open angle, `math.radians(-40.0)`. -/
def L_GRIPPER_OPEN : Radians := radians (-40)

/-- The arm step of `main`: goal is the named configuration
"two_arm_init_pose", planned with the arm profile; `sleep_time` omitted at the
call site, hence the Python default 0.0. -/
def armInitStep : MotionStep :=
  { group := "two_arm_group"
    goal := .configurationName "two_arm_init_pose"
    single_plan_parameters := plan_request_params
    sleep_time := 0 }

/-- A left-gripper step of `main`: a fresh `RobotState` with the left gripper
group's joint position set to `angle`, planned with the gripper profile. -/
def lGripperStep (angle : Radians) : MotionStep :=
  { group := "l_gripper_group"
    goal := .robotState (RobotState.set_joint_group_positions ⟨[]⟩ "l_gripper_group" [angle])
    single_plan_parameters := gripper_plan_request_params
    sleep_time := 0 }

/-- A right-gripper step of `main`, symmetric to `lGripperStep`. -/
def rGripperStep (angle : Radians) : MotionStep :=
  { group := "r_gripper_group"
    goal := .robotState (RobotState.set_joint_group_positions ⟨[]⟩ "r_gripper_group" [angle])
    single_plan_parameters := gripper_plan_request_params
    sleep_time := 0 }

/-- The fixed sequence `main` issues: the arm init pose, then twice
(left open, left close), then twice (right open, right close) — the two
`for _ in range(2)` loops. -/
def demoSequence : List MotionStep :=
  [armInitStep]
    ++ (List.replicate 2 [lGripperStep L_GRIPPER_OPEN, lGripperStep L_GRIPPER_CLOSE]).flatten
    ++ (List.replicate 2 [rGripperStep R_GRIPPER_OPEN, rGripperStep R_GRIPPER_CLOSE]).flatten

/-- Modelled from the spec: the SRDF pose library mapping a named
configuration to the kinematic group it belongs to is not under src/ (it lives
in the robot's MoveIt configuration package); per the spec, the arm step's
named configuration "two_arm_init_pose" belongs to the arm group. -/
def namedConfigurationGroup : String → Option String
  | "two_arm_init_pose" => some "two_arm_group"
  | _ => none

/-- The kinematic groups a goal spec mentions: for an explicit joint-state
goal, the groups whose positions were set on the robot state; for a named
configuration, the group the pose library assigns it to. -/
def GoalSpec.impliedGroups : GoalSpec → List String
  | .configurationName n => (namedConfigurationGroup n).toList
  | .robotState rs => rs.jointGroupPositions.map (fun p => p.1)

end GripperControl

namespace GripperControl

lemma planCalls_append {τ : Type} (a b : List (Event τ)) :
    planCalls (a ++ b) = planCalls a ++ planCalls b :=
  List.filterMap_append a b _

lemma sleepCalls_append {τ : Type} (a b : List (Event τ)) :
    sleepCalls (a ++ b) = sleepCalls a ++ sleepCalls b :=
  List.filterMap_append a b _

lemma plan_and_execute_planCalls {τ : Type} (pc : PlanningComponent)
    (plan : ParamChoice → PlanOutcome τ) (s : Option PlanRequestParameters)
    (m : Option MultiPlanParameters) (st : ℚ) :
    planCalls (plan_and_execute pc plan s m st).1 = [(pc, selectPlanParameters s m)] := by
  cases h : plan (selectPlanParameters s m) <;>
    simp [plan_and_execute, h, planCalls, List.filterMap, Event.planCallEntry]

lemma plan_and_execute_sleepCalls {τ : Type} (pc : PlanningComponent)
    (plan : ParamChoice → PlanOutcome τ) (s : Option PlanRequestParameters)
    (m : Option MultiPlanParameters) (st : ℚ) :
    sleepCalls (plan_and_execute pc plan s m st).1 = [st] := by
  cases h : plan (selectPlanParameters s m) <;>
    simp [plan_and_execute, h, sleepCalls, List.filterMap, Event.sleepCallEntry]

lemma plan_and_execute_record {τ : Type} (pc : PlanningComponent)
    (plan : ParamChoice → PlanOutcome τ) (s : Option PlanRequestParameters)
    (m : Option MultiPlanParameters) (st : ℚ) :
    (plan_and_execute pc plan s m st).2
      = match plan (selectPlanParameters s m) with
        | .success _ => StepRecord.Executed
        | .failure => StepRecord.PlanningFailed := by
  cases h : plan (selectPlanParameters s m) <;> simp [plan_and_execute, h]

lemma plan_and_execute_last {τ : Type} (pc : PlanningComponent)
    (plan : ParamChoice → PlanOutcome τ) (s : Option PlanRequestParameters)
    (m : Option MultiPlanParameters) (st : ℚ) :
    (plan_and_execute pc plan s m st).1.getLast? = some (.sleepCall st) := by
  cases h : plan (selectPlanParameters s m) <;> simp [plan_and_execute, h]

lemma plan_and_execute_failure {τ : Type} (pc : PlanningComponent)
    (plan : ParamChoice → PlanOutcome τ) (s : Option PlanRequestParameters)
    (m : Option MultiPlanParameters) (st : ℚ)
    (h : plan (selectPlanParameters s m) = .failure) :
    executeCalls (plan_and_execute pc plan s m st).1 = []
      ∧ errorLogs (plan_and_execute pc plan s m st).1 = ["Planning failed"]
      ∧ (plan_and_execute pc plan s m st).2 = .PlanningFailed := by
  refine ⟨?_, ?_, ?_⟩ <;>
    simp [plan_and_execute, h, executeCalls, errorLogs, List.filterMap,
      Event.executeCallEntry, Event.errorLogEntry]

lemma plan_and_execute_success {τ : Type} (pc : PlanningComponent)
    (plan : ParamChoice → PlanOutcome τ) (s : Option PlanRequestParameters)
    (m : Option MultiPlanParameters) (st : ℚ) (t : τ)
    (h : plan (selectPlanParameters s m) = .success t) :
    executeCalls (plan_and_execute pc plan s m st).1 = [(t, [])]
      ∧ (plan_and_execute pc plan s m st).2 = .Executed := by
  refine ⟨?_, ?_⟩ <;>
    simp [plan_and_execute, h, executeCalls, List.filterMap, Event.executeCallEntry]

lemma groupConsistent_get (comps : Comps) (name : String)
    (h : GroupConsistent comps) : (get_planning_component comps name).group = name := by
  induction comps with
  | nil => rfl
  | cons p rest ih =>
    by_cases hp : p.1 = name
    · simpa [get_planning_component, hp] using (h p (by simp)).trans hp
    · simp only [get_planning_component, hp, if_false]
      exact ih (fun q hq => h q (by simp [hq]))

lemma groupConsistent_set (comps : Comps) (name : String) (pc : PlanningComponent)
    (h : GroupConsistent comps) (hpc : pc.group = name) :
    GroupConsistent (setComponent comps name pc) := by
  intro q hq
  rcases List.mem_cons.mp hq with rfl | hq
  · exact hpc
  · exact h q hq

lemma runFrom_cons {τ : Type}
    (planner : Nat → PlanningComponent → ParamChoice → PlanOutcome τ)
    (comps : Comps) (i : Nat) (step : MotionStep) (rest : List MotionStep) :
    runFrom planner comps i (step :: rest)
      = ((plan_and_execute (buildRequest (get_planning_component comps step.group) step.goal)
            (planner i (buildRequest (get_planning_component comps step.group) step.goal))
            (some step.single_plan_parameters) none step.sleep_time).1
          ++ (runFrom planner (setComponent comps step.group
                (buildRequest (get_planning_component comps step.group) step.goal))
              (i + 1) rest).1,
        (plan_and_execute (buildRequest (get_planning_component comps step.group) step.goal)
            (planner i (buildRequest (get_planning_component comps step.group) step.goal))
            (some step.single_plan_parameters) none step.sleep_time).2
          :: (runFrom planner (setComponent comps step.group
                (buildRequest (get_planning_component comps step.group) step.goal))
              (i + 1) rest).2) := rfl

lemma runFrom_char {τ : Type}
    (planner : Nat → PlanningComponent → ParamChoice → PlanOutcome τ)
    (steps : List MotionStep) :
    ∀ (comps : Comps) (i : Nat), GroupConsistent comps →
      planCalls (runFrom planner comps i steps).1
          = steps.map (fun s => (stepRequest s, ParamChoice.single s.single_plan_parameters))
        ∧ sleepCalls (runFrom planner comps i steps).1
          = steps.map (fun s => s.sleep_time)
        ∧ (runFrom planner comps i steps).2 = reportOfOutcomes planner i steps := by
  induction steps with
  | nil => intro comps i _; exact ⟨rfl, rfl, rfl⟩
  | cons step rest ih =>
    intro comps i h
    have hg : (get_planning_component comps step.group).group = step.group :=
      groupConsistent_get comps step.group h
    have hpc : buildRequest (get_planning_component comps step.group) step.goal
        = stepRequest step := by
      simp [buildRequest, set_goal_state, set_start_state_to_current_state, stepRequest, hg]
    have hinv : GroupConsistent (setComponent comps step.group
        (buildRequest (get_planning_component comps step.group) step.goal)) :=
      groupConsistent_set comps step.group _ h (by simp [hpc, stepRequest])
    obtain ⟨ihp, ihs, ihr⟩ := ih (setComponent comps step.group
      (buildRequest (get_planning_component comps step.group) step.goal)) (i + 1) hinv
    rw [hpc] at ihp ihs ihr
    refine ⟨?_, ?_, ?_⟩
    · rw [runFrom_cons]
      simp only [planCalls_append, plan_and_execute_planCalls, hpc, ihp, List.map]
      simp [selectPlanParameters]
    · rw [runFrom_cons]
      simp only [sleepCalls_append, plan_and_execute_sleepCalls, hpc, ihs, List.map]
      simp
    · rw [runFrom_cons]
      simp only [plan_and_execute_record, hpc, ihr, reportOfOutcomes, selectPlanParameters]

lemma run_char {τ : Type}
    (planner : Nat → PlanningComponent → ParamChoice → PlanOutcome τ)
    (steps : List MotionStep) :
    planCalls (run planner steps).1
        = steps.map (fun s => (stepRequest s, ParamChoice.single s.single_plan_parameters))
      ∧ sleepCalls (run planner steps).1 = steps.map (fun s => s.sleep_time)
      ∧ (run planner steps).2 = reportOfOutcomes planner 0 steps :=
  runFrom_char planner steps [] 0 (fun p hp => absurd hp (List.not_mem_nil p))

/-- Pairing of two independent runs of the orchestrator over the same
sequence with the same planner. -/
def runTwice {τ : Type} (planner : Nat → PlanningComponent → ParamChoice → PlanOutcome τ)
    (steps : List MotionStep) :
    (List (Event τ) × List StepRecord) × (List (Event τ) × List StepRecord) :=
  (run planner steps, run planner steps)

end GripperControl

namespace GripperControl

/-- C1: when a step's plan outcome is Failure the executor is never invoked
for that step, the failure is logged at error severity, and it is absorbed:
the step still yields its PlanningFailed record and, in a run, every step of
the sequence (in particular every step after a failing one) still gets its
planner invocation. -/
theorem planning_failure_skips_execution_and_continues {τ : Type}
    (pc : PlanningComponent) (plan : ParamChoice → PlanOutcome τ)
    (s : Option PlanRequestParameters) (m : Option MultiPlanParameters) (st : ℚ)
    (planner : Nat → PlanningComponent → ParamChoice → PlanOutcome τ)
    (prevSteps nextSteps : List MotionStep)
    (h : plan (selectPlanParameters s m) = .failure) :
    executeCalls (plan_and_execute pc plan s m st).1 = []
      ∧ errorLogs (plan_and_execute pc plan s m st).1 = ["Planning failed"]
      ∧ (plan_and_execute pc plan s m st).2 = StepRecord.PlanningFailed
      ∧ (planCalls (run planner (prevSteps ++ nextSteps)).1).length
          = prevSteps.length + nextSteps.length := by
  obtain ⟨h1, h2, h3⟩ := plan_and_execute_failure pc plan s m st h
  refine ⟨h1, h2, h3, ?_⟩
  rw [(run_char planner (prevSteps ++ nextSteps)).1]
  simp

/-- Witness for C1 at a concrete failing step. -/
theorem planning_failure_skips_execution_and_continues_witness :
    executeCalls (plan_and_execute (stepRequest armInitStep)
        (fun _ => (PlanOutcome.failure : PlanOutcome Nat)) none none 0).1 = []
      ∧ errorLogs (plan_and_execute (stepRequest armInitStep)
          (fun _ => (PlanOutcome.failure : PlanOutcome Nat)) none none 0).1
          = ["Planning failed"]
      ∧ (plan_and_execute (stepRequest armInitStep)
          (fun _ => (PlanOutcome.failure : PlanOutcome Nat)) none none 0).2
          = StepRecord.PlanningFailed
      ∧ (planCalls (run (fun _ _ _ => (PlanOutcome.failure : PlanOutcome Nat))
            ([armInitStep] ++ [lGripperStep L_GRIPPER_OPEN])).1).length
          = [armInitStep].length + [lGripperStep L_GRIPPER_OPEN].length :=
  planning_failure_skips_execution_and_continues (stepRequest armInitStep)
    (fun _ => (PlanOutcome.failure : PlanOutcome Nat)) none none 0
    (fun _ _ _ => (PlanOutcome.failure : PlanOutcome Nat))
    [armInitStep] [lGripperStep L_GRIPPER_OPEN] rfl

/-- C2: when a step's plan outcome is Success the executor is invoked exactly
once with exactly that outcome's trajectory handle (and empty controllers
list), before the step's trailing sleep, and the step records Executed. -/
theorem planning_success_executes_exactly_once {τ : Type}
    (pc : PlanningComponent) (plan : ParamChoice → PlanOutcome τ)
    (s : Option PlanRequestParameters) (m : Option MultiPlanParameters) (st : ℚ) (t : τ)
    (h : plan (selectPlanParameters s m) = .success t) :
    executeCalls (plan_and_execute pc plan s m st).1 = [(t, [])]
      ∧ (plan_and_execute pc plan s m st).2 = StepRecord.Executed
      ∧ (plan_and_execute pc plan s m st).1
          = [.logInfo "Planning trajectory", .planCall pc (selectPlanParameters s m),
             .logInfo "Executing plan", .executeCall t [], .sleepCall st] := by
  obtain ⟨h1, h2⟩ := plan_and_execute_success pc plan s m st t h
  exact ⟨h1, h2, by simp [plan_and_execute, h]⟩

/-- Witness for C2 at a concrete successful step. -/
theorem planning_success_executes_exactly_once_witness :
    executeCalls (plan_and_execute (stepRequest armInitStep)
        (fun _ => PlanOutcome.success (7 : Nat)) none none 0).1 = [((7 : Nat), [])]
      ∧ (plan_and_execute (stepRequest armInitStep)
          (fun _ => PlanOutcome.success (7 : Nat)) none none 0).2 = StepRecord.Executed
      ∧ (plan_and_execute (stepRequest armInitStep)
          (fun _ => PlanOutcome.success (7 : Nat)) none none 0).1
          = [.logInfo "Planning trajectory",
             .planCall (stepRequest armInitStep) (selectPlanParameters none none),
             .logInfo "Executing plan", .executeCall (7 : Nat) [], .sleepCall 0] :=
  planning_success_executes_exactly_once (stepRequest armInitStep)
    (fun _ => PlanOutcome.success (7 : Nat)) none none 0 7 rfl

/-- C3: over any sequence the planner is invoked exactly once per step, in
list order, each time with that step's request and single-plan parameters;
for the demo's fixed sequence this is nine invocations in the order arm init
pose, left open, close, open, close, right open, close, open, close. -/
theorem planner_invoked_once_per_step_in_order {τ : Type}
    (planner : Nat → PlanningComponent → ParamChoice → PlanOutcome τ)
    (steps : List MotionStep) :
    planCalls (run planner steps).1
        = steps.map (fun s => (stepRequest s, ParamChoice.single s.single_plan_parameters))
      ∧ planCalls (run planner demoSequence).1
        = [(stepRequest armInitStep, ParamChoice.single plan_request_params),
           (stepRequest (lGripperStep L_GRIPPER_OPEN),
             ParamChoice.single gripper_plan_request_params),
           (stepRequest (lGripperStep L_GRIPPER_CLOSE),
             ParamChoice.single gripper_plan_request_params),
           (stepRequest (lGripperStep L_GRIPPER_OPEN),
             ParamChoice.single gripper_plan_request_params),
           (stepRequest (lGripperStep L_GRIPPER_CLOSE),
             ParamChoice.single gripper_plan_request_params),
           (stepRequest (rGripperStep R_GRIPPER_OPEN),
             ParamChoice.single gripper_plan_request_params),
           (stepRequest (rGripperStep R_GRIPPER_CLOSE),
             ParamChoice.single gripper_plan_request_params),
           (stepRequest (rGripperStep R_GRIPPER_OPEN),
             ParamChoice.single gripper_plan_request_params),
           (stepRequest (rGripperStep R_GRIPPER_CLOSE),
             ParamChoice.single gripper_plan_request_params)] := by
  refine ⟨(run_char planner steps).1, ?_⟩
  rw [(run_char planner demoSequence).1]
  rfl

/-- C4: the sleep primitive runs exactly once per step with the step's
configured delay, as the step's final action, regardless of outcome; across a
run the sleeps are exactly the steps' delays in order, and every demo step's
delay is zero. -/
theorem sleep_invoked_once_per_step {τ : Type}
    (pc : PlanningComponent) (plan : ParamChoice → PlanOutcome τ)
    (s : Option PlanRequestParameters) (m : Option MultiPlanParameters) (st : ℚ)
    (planner : Nat → PlanningComponent → ParamChoice → PlanOutcome τ)
    (steps : List MotionStep) :
    sleepCalls (plan_and_execute pc plan s m st).1 = [st]
      ∧ (plan_and_execute pc plan s m st).1.getLast? = some (.sleepCall st)
      ∧ sleepCalls (run planner steps).1 = steps.map (fun step => step.sleep_time)
      ∧ demoSequence.map (fun step => step.sleep_time) = List.replicate 9 0 :=
  ⟨plan_and_execute_sleepCalls pc plan s m st,
   plan_and_execute_last pc plan s m st,
   (run_char planner steps).2.1,
   rfl⟩

/-- C5: the orchestrator's report records, per step in order, Executed when
that step's outcome was Success and PlanningFailed when it was Failure; the
empty sequence yields the empty report and an empty trace. -/
theorem run_reports_one_record_per_step {τ : Type}
    (planner : Nat → PlanningComponent → ParamChoice → PlanOutcome τ)
    (steps : List MotionStep) :
    (run planner steps).2 = reportOfOutcomes planner 0 steps
      ∧ run planner ([] : List MotionStep) = ([], []) :=
  ⟨(run_char planner steps).2.2, rfl⟩

/-- C6: request building is pure total data assembly: for every component and
goal it yields exactly the record carrying the component's group, a
current-state start and that goal, with no validation — in particular a
joint-value vector of any arity (here an arbitrary list) is accepted
unchanged. -/
theorem build_request_is_total_pure_assembly
    (pc : PlanningComponent) (g : GoalSpec) (group : String) (vals : List Radians) :
    buildRequest pc g
        = { group := pc.group, startFromCurrent := true, goal := some g }
      ∧ buildRequest pc (.robotState (RobotState.set_joint_group_positions ⟨[]⟩ group vals))
        = { group := pc.group, startFromCurrent := true,
            goal := some (.robotState ⟨[(group, vals)]⟩) } :=
  ⟨rfl, rfl⟩

/-- C7: every planner invocation of every run carries a request whose start
state was snapshotted from the current state. -/
theorem start_state_snapshotted_from_current {τ : Type}
    (planner : Nat → PlanningComponent → ParamChoice → PlanOutcome τ)
    (steps : List MotionStep) (req : PlanningComponent) (ch : ParamChoice)
    (h : (req, ch) ∈ planCalls (run planner steps).1) :
    req.startFromCurrent = true := by
  rw [(run_char planner steps).1] at h
  obtain ⟨step, _, hstep⟩ := List.mem_map.mp h
  have hr : req = stepRequest step := (congrArg Prod.fst hstep).symm
  rw [hr]
  rfl

/-- Witness for C7 at a concrete one-step run. -/
theorem start_state_snapshotted_from_current_witness :
    (stepRequest armInitStep, ParamChoice.single plan_request_params)
        ∈ planCalls (run (fun _ _ _ => (PlanOutcome.failure : PlanOutcome Nat))
            [armInitStep]).1
      ∧ (stepRequest armInitStep).startFromCurrent = true :=
  ⟨by
    rw [(run_char (fun _ _ _ => (PlanOutcome.failure : PlanOutcome Nat)) [armInitStep]).1]
    exact List.mem_singleton.mpr rfl,
   start_state_snapshotted_from_current
     (fun _ _ _ => (PlanOutcome.failure : PlanOutcome Nat)) [armInitStep]
     (stepRequest armInitStep) (ParamChoice.single plan_request_params)
     (by
       rw [(run_char (fun _ _ _ => (PlanOutcome.failure : PlanOutcome Nat)) [armInitStep]).1]
       exact List.mem_singleton.mpr rfl)⟩

/-- C8: for every step of the demo sequence the kinematic group its goal spec
implies equals the step's target group. -/
theorem goal_spec_group_matches_target :
    ∀ step ∈ demoSequence, step.goal.impliedGroups = [step.group] := by
  intro step hstep
  have hseq : demoSequence
      = [armInitStep,
         lGripperStep L_GRIPPER_OPEN, lGripperStep L_GRIPPER_CLOSE,
         lGripperStep L_GRIPPER_OPEN, lGripperStep L_GRIPPER_CLOSE,
         rGripperStep R_GRIPPER_OPEN, rGripperStep R_GRIPPER_CLOSE,
         rGripperStep R_GRIPPER_OPEN, rGripperStep R_GRIPPER_CLOSE] := rfl
  rw [hseq] at hstep
  simp only [List.mem_cons, List.not_mem_nil, or_false] at hstep
  rcases hstep with h | h | h | h | h | h | h | h | h <;> subst h <;> rfl

/-- Witness for C8 at the arm step. -/
theorem goal_spec_group_matches_target_witness :
    armInitStep ∈ demoSequence ∧ armInitStep.goal.impliedGroups = [armInitStep.group] :=
  ⟨List.mem_cons_self armInitStep _,
   goal_spec_group_matches_target armInitStep (List.mem_cons_self armInitStep _)⟩

/-- C9: with a planner that succeeds on every input, the two reports of two
independent runs over the same sequence are identical, and both record
Executed for every step; the orchestrator itself is a pure function of the
planner and the sequence, hence deterministic across runs. -/
theorem deterministic_success_gives_identical_reports {τ : Type}
    (planner : Nat → PlanningComponent → ParamChoice → PlanOutcome τ)
    (steps : List MotionStep)
    (h : ∀ i pc ch, (planner i pc ch).isSuccess = true) :
    (runTwice planner steps).1.2 = (runTwice planner steps).2.2
      ∧ (runTwice planner steps).1.2 = List.replicate steps.length StepRecord.Executed := by
  refine ⟨rfl, ?_⟩
  show (run planner steps).2 = _
  rw [(run_char planner steps).2.2]
  suffices hgen : ∀ (i : Nat) (l : List MotionStep),
      reportOfOutcomes planner i l = List.replicate l.length StepRecord.Executed by
    exact hgen 0 steps
  intro i l
  induction l generalizing i with
  | nil => rfl
  | cons a rest ih =>
    have hs := h i (stepRequest a) (.single a.single_plan_parameters)
    cases ho : planner i (stepRequest a) (.single a.single_plan_parameters) with
    | success t => simp [reportOfOutcomes, ho, ih, List.replicate]
    | failure => rw [ho] at hs; simp [PlanOutcome.isSuccess] at hs

/-- Witness for C9: an always-successful planner over the demo sequence. -/
theorem deterministic_success_gives_identical_reports_witness :
    (runTwice (fun _ _ _ => PlanOutcome.success (0 : Nat)) demoSequence).1.2
        = (runTwice (fun _ _ _ => PlanOutcome.success (0 : Nat)) demoSequence).2.2
      ∧ (runTwice (fun _ _ _ => PlanOutcome.success (0 : Nat)) demoSequence).1.2
        = List.replicate demoSequence.length StepRecord.Executed :=
  deterministic_success_gives_identical_reports
    (fun _ _ _ => PlanOutcome.success (0 : Nat)) demoSequence (fun _ _ _ => rfl)

/-- C10: parameter selection in plan_and_execute has multi-over-single
precedence (multi wins when both are provided, single is used when only it
is provided, no parameters otherwise), and in every case the planner is
called exactly once, with exactly the selected parameters. -/
theorem multi_parameters_take_precedence {τ : Type}
    (pc : PlanningComponent) (plan : ParamChoice → PlanOutcome τ)
    (s : PlanRequestParameters) (m : MultiPlanParameters) (st : ℚ) :
    selectPlanParameters (some s) (some m) = ParamChoice.multi m
      ∧ selectPlanParameters (some s) none = ParamChoice.single s
      ∧ selectPlanParameters none (some m) = ParamChoice.multi m
      ∧ selectPlanParameters none none = ParamChoice.noParams
      ∧ ∀ (sp : Option PlanRequestParameters) (mp : Option MultiPlanParameters),
          planCalls (plan_and_execute pc plan sp mp st).1
            = [(pc, selectPlanParameters sp mp)] :=
  ⟨rfl, rfl, rfl, rfl, fun sp mp => plan_and_execute_planCalls pc plan sp mp st⟩

end GripperControl
